import Mathlib

/-!
Verification of the socksio SOCKS5 proxy (src/socksio/server.py, src/socksio/auth.py)
against its natural-language specification.

The Python coroutines are shallowly embedded as explicit state-passing
functions over a `PState`: the client's incoming byte stream, an event
trace recording every read, write, close, outbound dial and worker start,
the upstream transport (`remote`), and flags.  Each awaited step of a
coroutine becomes one monadic step; asyncio runs a coroutine without
interleaving between awaits, so the trace order of the synchronous
segments matches the order in which the event loop performs them.
`asyncio.StreamReader.read n` returns at most `n` bytes and whatever is
left at end of stream; the model takes `n` bytes from the remaining input
(fewer at the end), which is the delivery schedule where the client's
bytes have all arrived.  `struct.unpack`/`struct.pack` failures and the
Python exceptions raised by the server are modelled with `Except PyErr`.
-/

deriving instance DecidableEq for Except

abbrev Byte := Nat
abbrev Bytes := List Nat

/-- Python exceptions that the modelled code can raise. -/
inductive PyErr where
  /-- `struct.error`: wrong byte count or value out of range. -/
  | structError
  /-- `KeyError`: e.g. `set().pop()` on an empty set. -/
  | keyError
  /-- `TypeError`: e.g. `StreamReader.read` called with a non-int. -/
  | typeError
  /-- `socksio.auth.AuthenticationError`. -/
  | authenticationError
  /-- `OSError`: `socket.inet_ntoa` on a bad buffer, or a failed dial. -/
  | osError
deriving DecidableEq, Repr

/-- One observable event of a session. -/
inductive Ev where
  /-- bytes consumed from the client stream by `StreamReader.read`. -/
  | rd (bs : Bytes)
  /-- bytes written to the client via `StreamWriter.write`. -/
  | wr (bs : Bytes)
  /-- `transport.close()` on the client transport. -/
  | closeClient
  /-- `loop.create_connection(...)` attempted towards `addr:port`. -/
  | dial (addr : String) (port : Nat)
  /-- bytes written to the upstream transport (`self._remote.write`). -/
  | wrRemote (bs : Bytes)
  /-- `asyncio.ensure_future(self._start_exchange_loop())`. -/
  | startWorker
deriving DecidableEq, Repr

/-- The session state threaded through the embedded coroutines. -/
structure PState where
  /-- bytes sent by the client and not yet consumed. -/
  input : Bytes
  /-- events so far, oldest first. -/
  trace : List Ev
  /-- `self._remote`: the sockname `(addr, port)` of the outbound
  transport once a dial has succeeded, `none` before. -/
  remote : Option (String × Nat)
  /-- the client transport has been closed. -/
  closed : Bool
  /-- the exchange-loop worker task has been started. -/
  worker : Bool
deriving DecidableEq, Repr

/-- A step of an embedded coroutine: it either returns a value or raises,
and updates the session state. -/
def M (α : Type) : Type := PState → Except PyErr α × PState

def M.pure {α : Type} (a : α) : M α := fun s => (Except.ok a, s)

def M.bind {α β : Type} (x : M α) (f : α → M β) : M β := fun s =>
  match x s with
  | (Except.ok a, s') => f a s'
  | (Except.error e, s') => (Except.error e, s')

/-- Lift a pure `Except` computation (e.g. `struct.unpack`). -/
def liftE {α : Type} (x : Except PyErr α) : M α := fun s => (x, s)

def throwE {α : Type} (e : PyErr) : M α := fun s => (Except.error e, s)

/-- `await self._stream_reader.read n`: at most `n` bytes, fewer at EOF. -/
def readB (n : Nat) : M Bytes := fun s =>
  (Except.ok (s.input.take n),
   { s with input := s.input.drop n, trace := s.trace ++ [Ev.rd (s.input.take n)] })

/-- `self._stream_writer.write bs` (or `writer.write bs`). -/
def writeB (bs : Bytes) : M Unit := fun s =>
  (Except.ok (), { s with trace := s.trace ++ [Ev.wr bs] })

/-- `self._transport.close()`. -/
def closeClient : M Unit := fun s =>
  (Except.ok (), { s with closed := true, trace := s.trace ++ [Ev.closeClient] })

/-- `struct.unpack('!BB', bs)`: exactly two bytes. -/
def unpackBB (bs : Bytes) : Except PyErr (Nat × Nat) :=
  match bs with
  | [a, b] => Except.ok (a, b)
  | _ => Except.error PyErr.structError

/-- `struct.unpack('!B', bs)`: exactly one byte. -/
def unpackB1 (bs : Bytes) : Except PyErr Nat :=
  match bs with
  | [a] => Except.ok a
  | _ => Except.error PyErr.structError

/-- `struct.unpack('!BBBB', bs)`: exactly four bytes. -/
def unpack4B (bs : Bytes) : Except PyErr (Nat × Nat × Nat × Nat) :=
  match bs with
  | [a, b, c, d] => Except.ok (a, b, c, d)
  | _ => Except.error PyErr.structError

/-- `struct.unpack('!H', bs)`: two bytes, big-endian. -/
def unpackH (bs : Bytes) : Except PyErr Nat :=
  match bs with
  | [a, b] => Except.ok (a * 256 + b)
  | _ => Except.error PyErr.structError

/-- `struct.unpack('B' * n, bs)` / `struct.unpack('!{n}s', bs)`: the
payload must hold exactly `n` bytes. -/
def unpackExact (n : Nat) (bs : Bytes) : Except PyErr Bytes :=
  if bs.length = n then Except.ok bs else Except.error PyErr.structError

/-- `struct.pack('!B'*n, xs...)`: every value must fit one byte. -/
def packBs (xs : Bytes) : Except PyErr Bytes :=
  if ∀ x ∈ xs, x < 256 then Except.ok xs else Except.error PyErr.structError

/-- `struct.pack('!H', n)`: big-endian 16-bit. -/
def packH (n : Nat) : Except PyErr Bytes :=
  if n < 65536 then Except.ok [n / 256, n % 256] else Except.error PyErr.structError

/-- `socket.inet_ntoa`: exactly four bytes to a dotted quad. -/
def inet_ntoa (bs : Bytes) : Except PyErr String :=
  match bs with
  | [a, b, c, d] => Except.ok (s!"{a}.{b}.{c}.{d}")
  | _ => Except.error PyErr.osError

/-- Split a character list at every dot, like `String.splitOn "."`. -/
def splitDots : List Char → List (List Char)
  | [] => [[]]
  | c :: rest =>
    let r := splitDots rest
    if c = '.' then [] :: r
    else
      match r with
      | g :: gs => (c :: g) :: gs
      | [] => [[c]]

/-- A nonempty all-digit group to its decimal value (as `String.toNat?`). -/
def digitsToNat? (cs : List Char) : Option Nat :=
  if cs ≠ [] ∧ cs.all Char.isDigit then
    some (cs.foldl (fun n c => n * 10 + (c.toNat - 48)) 0)
  else none

/-- `socket.inet_aton` on the dotted-quad strings produced for socket
addresses (the C function also accepts abbreviated forms, which never
occur as socknames): four dot-separated decimal groups, each below 256. -/
def inet_aton (a : String) : Except PyErr Bytes :=
  match (splitDots a.toList).mapM digitsToNat? with
  | some [x, y, z, w] =>
      if x < 256 ∧ y < 256 ∧ z < 256 ∧ w < 256 then Except.ok [x, y, z, w]
      else Except.error PyErr.osError
  | _ => Except.error PyErr.osError

/-- `set.pop` of CPython removes an arbitrary element and raises
`KeyError` on an empty set.  The model returns the head of the list
standing for the set; every theorem below applies it only to an empty or
a one-element set, where the choice is forced. -/
def setPop (s : List Nat) : Except PyErr Nat :=
  match s with
  | [] => Except.error PyErr.keyError
  | m :: _ => Except.ok m

/-- src/socksio/auth.py: the authentication strategies.  The credential
verifier backend of `UsernamePassword` is an injected collaborator,
modelled as a boolean function. -/
inductive AuthHandler where
  | withoutAuth
  | usernamePassword (verify : Bytes → Bytes → Bool)

/-- `BaseAuthentication.METHOD` of each concrete strategy
(`WithoutAuth.METHOD = 0x00`, `UsernamePassword.METHOD = 0x01`). -/
def AuthHandler.method : AuthHandler → Nat
  | AuthHandler.withoutAuth => 0
  | AuthHandler.usernamePassword _ => 1

namespace BaseAuthentication

/-- `BaseAuthentication.on_success` with `protocol_version = 5`
(`Socks5.VERSION`, passed at construction):
`writer.write(struct.pack('!BB', 5, SUCCESS))`. -/
def on_success : M Unit :=
  M.bind (liftE (packBs [5, 0])) fun out => writeB out

/-- `BaseAuthentication.on_fail`:
`writer.write(struct.pack('!BB', 5, FAIL))`. -/
def on_fail : M Unit :=
  M.bind (liftE (packBs [5, 1])) fun out => writeB out

end BaseAuthentication

namespace UsernamePassword

/-- `UsernamePassword.get_credentials`.  Line by line:
`ver, ulen = struct.unpack('!BB', await reader.read(2))` (a 2-tuple
unpacked into two ints);
`username = struct.unpack('!{}s'.format(ulen), await reader.read(ulen))`
— note `username` is bound to the whole 1-TUPLE returned by unpack;
`plen = struct.unpack('!B', await reader.read(1))` — `plen` too is the
1-tuple `(n,)`, not an int;
`password = struct.unpack('!{}s'.format(plen), await reader.read(plen))`
— `'!{}s'.format(plen)` builds the (nonsense) string `'!(n,)s'` without
error, then `reader.read(plen)` evaluates `plen < 0` on a tuple and
raises `TypeError`.  The coroutine therefore never returns. -/
def get_credentials : M (Bytes × Bytes) :=
  M.bind (readB 2) fun h =>
  M.bind (liftE (unpackBB h)) fun vu =>
  M.bind (readB vu.2) fun ub =>
  M.bind (liftE (unpackExact vu.2 ub)) fun _username =>
  M.bind (readB 1) fun pb =>
  M.bind (liftE (unpackB1 pb)) fun _plen =>
  throwE PyErr.typeError

/-- `UsernamePassword.negotiate`: read the credentials, verify them with
the backend, answer success or answer failure and raise
`AuthenticationError`.  (The verification branch is unreachable because
`get_credentials` always raises.) -/
def negotiate (verify : Bytes → Bytes → Bool) : M Unit :=
  M.bind get_credentials fun up =>
  if verify up.1 up.2 then BaseAuthentication.on_success
  else M.bind BaseAuthentication.on_fail fun _ => throwE PyErr.authenticationError

end UsernamePassword

namespace WithoutAuth

/-- `WithoutAuth.negotiate`: immediately writes the success result. -/
def negotiate : M Unit := BaseAuthentication.on_success

end WithoutAuth

/-- Dispatch on the strategy's `negotiate` coroutine. -/
def AuthHandler.negotiate : AuthHandler → M Unit
  | AuthHandler.withoutAuth => WithoutAuth.negotiate
  | AuthHandler.usernamePassword verify => UsernamePassword.negotiate verify

namespace Socks5

/-- `Socks5.VERSION`. -/
def VERSION : Nat := 5

/-- `SocksReply.COMMAND_NOT_SUPPORTED`. -/
def COMMAND_NOT_SUPPORTED : Nat := 7

/-- `SocksConnectionType.CONNECT`. -/
def CONNECT : Nat := 1

/-- The auth-handler dict `{auth.METHOD: auth for auth in auth_handlers}`,
modelled as an association list (the tables built by the constructor have
distinct keys). -/
abbrev HandlerTable := List (Nat × AuthHandler)

/-- `Socks5.__init__` with `auth_handlers=None`:
`self._auth_handlers = {WithoutAuth.METHOD: WithoutAuth(self.VERSION)}`. -/
def defaultAuthHandlers : HandlerTable := [(0, AuthHandler.withoutAuth)]

/-- Dict lookup `self._auth_handlers[m]`; a missing key raises `KeyError`
(it cannot be missing here, since `m` is drawn from the key set). -/
def dictGet (tbl : HandlerTable) (m : Nat) : Except PyErr AuthHandler :=
  match tbl.lookup m with
  | some h => Except.ok h
  | none => Except.error PyErr.keyError

/-- `Socks5.authenticate`.  Line by line:
`client_info = await self._stream_reader.read(2)`;
`version, nmethods = struct.unpack('!BB', client_info)`;
`if version != self.VERSION: self._transport.close()` — note there is NO
`return`: execution falls through to the method parsing in every case;
`client_methods = struct.unpack('B'*nmethods, await read(nmethods))`;
`auth_methods = set(self._auth_handlers) & set(client_methods)` — the
intersection, modelled as the server's key list filtered by client
membership;
`await self._auth_handlers[auth_methods.pop()].negotiate(...)` — `pop`
raises `KeyError` on an empty intersection; no method-selection message
is ever written before `negotiate` runs. -/
def authenticate (tbl : HandlerTable) : M Unit :=
  M.bind (readB 2) fun client_info =>
  M.bind (liftE (unpackBB client_info)) fun vn =>
  M.bind (if vn.1 ≠ VERSION then closeClient else M.pure ()) fun _ =>
  M.bind (readB vn.2) fun mb =>
  M.bind (liftE (unpackExact vn.2 mb)) fun client_methods =>
  M.bind (liftE (setPop ((tbl.map Prod.fst).filter (fun m => m ∈ client_methods)))) fun m =>
  M.bind (liftE (dictGet tbl m)) fun h =>
  h.negotiate

/-- The outcome of `loop.create_connection` towards a destination: `none`
when the dial raises (refused/unreachable), or `some (addr, port)` — the
`sockname` of the new outbound socket — when it succeeds.  The event loop
and network are the environment, so the outcome is a parameter. -/
abbrev Dial := String → Nat → Option (String × Nat)

/-- `await self._loop.create_connection(partial(RemoteConnection, ...),
remote_addr, remote_port)`: records the dial attempt; on failure the
`OSError` propagates (there is no `try` and no timeout around the call). -/
def create_connection (dial : Dial) (addr : String) (port : Nat) :
    M (String × Nat) := fun s =>
  match dial addr port with
  | some r => (Except.ok r, { s with trace := s.trace ++ [Ev.dial addr port] })
  | none => (Except.error PyErr.osError, { s with trace := s.trace ++ [Ev.dial addr port] })

/-- `self._remote = remote_transport`. -/
def setRemote (r : String × Nat) : M Unit := fun s =>
  (Except.ok (), { s with remote := some r })

/-- `Socks5._connect`.  Line by line:
`remote_transport, remote_client = await self._loop.create_connection(...)`;
`self._remote = remote_transport`;
`bind_addr, bind_port = remote_transport.get_extra_info('sockname')`;
`self._stream_writer.write(struct.pack('!BBBB', 5, 0, 0, atyp))`;
`self._stream_writer.write(socket.inet_aton(bind_addr) + struct.pack('!H', bind_port))`. -/
def connect (dial : Dial) (atyp : Nat) (remote_addr : String) (remote_port : Nat) :
    M Unit :=
  M.bind (create_connection dial remote_addr remote_port) fun r =>
  M.bind (setRemote r) fun _ =>
  M.bind (liftE (packBs [5, 0, 0, atyp])) fun rep =>
  M.bind (writeB rep) fun _ =>
  M.bind (liftE (inet_aton r.1)) fun b4 =>
  M.bind (liftE (packH r.2)) fun pb =>
  writeB (b4 ++ pb)

/-- `Socks5._handle_connection_by_type`.  Line by line:
`version, cmd, rsv, atyp = struct.unpack('!BBBB', await read(4))`;
`handler = self._connection_type_handlers.get(cmd)` — the table holds
only `CONNECT`;
if missing: `write(struct.pack('!BB', VERSION, COMMAND_NOT_SUPPORTED))`
then `self._transport.close()`;
else: `remote_addr = socket.inet_ntoa(await read(4))` — four bytes are
read as an IPv4 address REGARDLESS of `atyp`;
`remote_port = struct.unpack('!H', await read(2))[0]`;
`await handler(atyp, remote_addr, remote_port)`. -/
def handle_connection_by_type (dial : Dial) : M Unit :=
  M.bind (readB 4) fun hdr =>
  M.bind (liftE (unpack4B hdr)) fun h =>
  if h.2.1 = CONNECT then
    M.bind (readB 4) fun ab =>
    M.bind (liftE (inet_ntoa ab)) fun remote_addr =>
    M.bind (readB 2) fun pb =>
    M.bind (liftE (unpackH pb)) fun remote_port =>
    connect dial h.2.2.2 remote_addr remote_port
  else
    M.bind (liftE (packBs [VERSION, COMMAND_NOT_SUPPORTED])) fun rep =>
    M.bind (writeB rep) fun _ =>
    closeClient

/-- `asyncio.ensure_future(self._start_exchange_loop())` in
`serve_connection`: the relay worker task is created. -/
def startWorker : M Unit := fun s =>
  (Except.ok (), { s with worker := true, trace := s.trace ++ [Ev.startWorker] })

/-- `Socks5.serve_connection`:
`try: await self.authenticate()`
`except AuthenticationError: log; self._transport.close()`
`else: await self._handle_connection_by_type();`
`      self._worker = asyncio.ensure_future(self._start_exchange_loop())`.
Only `AuthenticationError` is caught; any other exception (KeyError,
TypeError, struct.error, OSError) escapes the task unhandled, so the
session coroutine just dies at that point. -/
def serve_connection (tbl : HandlerTable) (dial : Dial) : M Unit := fun s =>
  match authenticate tbl s with
  | (Except.error PyErr.authenticationError, s') => closeClient s'
  | (Except.error e, s') => (Except.error e, s')
  | (Except.ok _, s') =>
      (M.bind (handle_connection_by_type dial) fun _ => startWorker) s'

/-- `Socks5._start_exchange_loop`, the client-to-upstream relay: the
argument lists the successive results of `await self._stream_reader.read(2048)`;
an empty result (EOF) sets `_close_event` and ends the loop, any other
chunk is written verbatim to `self._remote`.  The returned list is what
the upstream transport receives, in order.  (The `except` clause only
logs; reads of an intact stream do not raise.) -/
def start_exchange_loop : List Bytes → List Bytes
  | [] => []
  | c :: rest => if c = [] then [] else c :: start_exchange_loop rest

end Socks5

namespace RemoteConnection

/-- `RemoteConnection.data_received(data)`:
`self._proxy_transport.write(data)` — the upstream-to-client relay
forwards each delivered chunk verbatim to the client transport.
`out` is the list of chunks already written to the client. -/
def data_received (out : List Bytes) (data : Bytes) : List Bytes :=
  out ++ [data]

end RemoteConnection

/-- A fresh session state over a client input. -/
def initState (inp : Bytes) : PState :=
  { input := inp, trace := [], remote := none, closed := false, worker := false }

/-- Run an embedded coroutine on a fresh session. -/
def runM {α : Type} (x : M α) (inp : Bytes) : Except PyErr α × PState :=
  x (initState inp)

/-- Modelled from the spec (section 4.1 Wire Codec, missing from the
source, which never branches on ATYP):
`decodeConnectionRequest(bytes) -> (version, command, addressType,
address, port)`: fixed header `VER(1) CMD(1) RSV(1) ATYP(1)`, then an
address depending on ATYP — 4 bytes for IPv4, 1 length byte + N bytes
for DomainName, 16 bytes for IPv6 — then a 2-byte big-endian port. -/
def decodeConnectionRequestSpec (bs : Bytes) :
    Except PyErr (Nat × Nat × Nat × Bytes × Nat) :=
  match bs with
  | ver :: cmd :: _rsv :: atyp :: rest =>
    let addrAndPort : Except PyErr (Bytes × Bytes) :=
      if atyp = 1 then
        if rest.length ≥ 6 then Except.ok (rest.take 4, rest.drop 4)
        else Except.error PyErr.structError
      else if atyp = 3 then
        match rest with
        | n :: rest' =>
          if rest'.length ≥ n + 2 then Except.ok (rest'.take n, rest'.drop n)
          else Except.error PyErr.structError
        | [] => Except.error PyErr.structError
      else if atyp = 4 then
        if rest.length ≥ 18 then Except.ok (rest.take 16, rest.drop 16)
        else Except.error PyErr.structError
      else Except.error PyErr.structError
    match addrAndPort with
    | Except.ok (addr, pr) =>
      match pr with
      | p1 :: p2 :: _ => Except.ok (ver, cmd, atyp, addr, p1 * 256 + p2)
      | _ => Except.error PyErr.structError
    | Except.error e => Except.error e
  | _ => Except.error PyErr.structError

/-- The byte payloads of the client-directed writes of a trace, in order. -/
def writesOf (tr : List Ev) : List Bytes :=
  tr.filterMap (fun e =>
    match e with
    | Ev.wr bs => some bs
    | _ => none)

/-- Modelled from the spec: the credential message layout
`VER(1) ULEN(1) UNAME(ULEN) PLEN(1) PASSWD(PLEN)` (the encoder side of
the round-trip property; the sub-negotiation version byte is 1).  The
source contains only the decoder (`UsernamePassword.get_credentials`). -/
def encodeUserPass (u p : Bytes) : Bytes :=
  1 :: u.length :: (u ++ p.length :: p)

/-! ## Theorems -/

theorem data_received_foldl (ds : List Bytes) (out : List Bytes) :
    ds.foldl RemoteConnection.data_received out = out ++ ds := by
  induction ds generalizing out with
  | nil => simp
  | cons d ds ih => simp [RemoteConnection.data_received, ih]

theorem start_exchange_loop_all_nonempty (chunks : List Bytes)
    (h : ∀ c ∈ chunks, c ≠ []) :
    Socks5.start_exchange_loop (chunks ++ [[]]) = chunks := by
  induction chunks with
  | nil => simp [Socks5.start_exchange_loop]
  | cons c cs ih =>
    have hc : c ≠ [] := h c (by simp)
    have ih' := ih (fun x hx => h x (by simp [hx]))
    simp only [List.cons_append, Socks5.start_exchange_loop, if_neg hc, List.append_eq, ih']

/-- Claim C2: after a successful CONNECT the relay is byte-transparent in
both directions.  Client to upstream: `_start_exchange_loop` forwards the
chunks delivered by the client's stream reader (each nonempty, EOF last)
verbatim and in order, so the upstream transport receives exactly the
client's byte sequence.  Upstream to client: `RemoteConnection.data_received`
appends each delivered chunk verbatim to the client transport, so the
client receives exactly the upstream's byte sequence.  Neither direction
inspects or transforms a payload byte. -/
theorem relay_byte_transparent (chunks dchunks : List Bytes)
    (h : ∀ c ∈ chunks, c ≠ []) :
    (Socks5.start_exchange_loop (chunks ++ [[]])).flatten = chunks.flatten ∧
    (dchunks.foldl RemoteConnection.data_received []).flatten = dchunks.flatten := by
  refine ⟨?_, ?_⟩
  · rw [start_exchange_loop_all_nonempty chunks h]
  · rw [data_received_foldl]
    simp

/-- Claim C2, witness: the relay theorem applied to the concrete chunk
sequences `[[1,2],[3]]` (client to upstream) and `[[4],[5,6]]` (upstream
to client). -/
theorem relay_byte_transparent_witness :
    (Socks5.start_exchange_loop ([[1, 2], [3]] ++ [[]])).flatten
        = ([[1, 2], [3]] : List Bytes).flatten ∧
    (([[4], [5, 6]] : List Bytes).foldl RemoteConnection.data_received []).flatten
        = ([[4], [5, 6]] : List Bytes).flatten :=
  relay_byte_transparent [[1, 2], [3]] [[4], [5, 6]] (by decide)

/-- Claim C3 (code_bug): on the greeting `[4, 1, 0]`, whose version byte
is 4 ≠ 5, `Socks5.authenticate` calls `self._transport.close()` but —
lacking a `return` — then still parses the method list, still selects the
No-Auth strategy and still runs its negotiation, writing the 2-byte reply
`[5, 0]` after the close; command parsing then proceeds (and dies on the
exhausted stream with a `struct.error`).  The claim's required behaviour
(drop with no reply bytes, nothing after the version check) does not hold:
the trace below shows `Ev.wr [5, 0]` after `Ev.closeClient`. -/
theorem version_mismatch_still_negotiates :
    runM (Socks5.serve_connection Socks5.defaultAuthHandlers (fun _ _ => none)) [4, 1, 0]
      = (Except.error PyErr.structError,
         { input := [],
           trace := [Ev.rd [4, 1], Ev.closeClient, Ev.rd [0], Ev.wr [5, 0], Ev.rd []],
           remote := none, closed := true, worker := false }) := rfl

/-- Claim C4 (code_bug): on the greeting `[5, 1, 1]` offered to the
default server (which supports only method 0), the method intersection is
empty and `set().pop()` raises `KeyError` — not the intended
`UnsupportedAuthorizationType` — and the exception escapes
`serve_connection` (whose `except` clause catches only
`AuthenticationError`), so the client connection is NEVER closed
(`closed := false` below).  No reply is written and the relay phase never
starts, as the claim says, but the session does not close. -/
theorem empty_intersection_raises_keyerror :
    runM (Socks5.serve_connection Socks5.defaultAuthHandlers (fun _ _ => none)) [5, 1, 1]
      = (Except.error PyErr.keyError,
         { input := [], trace := [Ev.rd [5, 1], Ev.rd [1]],
           remote := none, closed := false, worker := false }) := rfl

/-- Claim C6 (code_bug): decoding any encoded credential message fails.
`get_credentials` binds `plen` to the 1-tuple returned by
`struct.unpack('!B', ...)` and then calls `reader.read(plen)`, which
raises `TypeError` on every input (`username` would likewise be a
1-tuple, not the byte string).  Hence encode-then-decode recovers the
credentials for NO username/password, in particular not for the valid
lengths 1..255: here the message `VER=1 ULEN=1 UNAME='a' PLEN=1
PASSWD='b'` is decoded up to the `PLEN` byte and then the coroutine
raises. -/
theorem get_credentials_roundtrip_fails :
    runM UsernamePassword.get_credentials (encodeUserPass [97] [98])
      = (Except.error PyErr.typeError,
         { input := [98], trace := [Ev.rd [1, 1], Ev.rd [97], Ev.rd [1]],
           remote := none, closed := false, worker := false }) := rfl

/-- Claim C8 (code_bug): a CONNECT whose outbound dial fails.  On input
CONNECT to 127.0.0.1:1 with the dial refusing, `_connect`'s
`create_connection` — which has no timeout and no `try` around it —
raises `OSError`, which escapes the session task: no `GeneralFailure`
(0x01) reply is written (the only client-directed write in the trace is
the `[5, 0]` auth result), the client connection is not closed
(`closed := false`), and the relay worker never starts.  The claim's
required GeneralFailure-then-close behaviour does not hold, and no
1-second bound exists anywhere in the dial path. -/
theorem dial_failure_unhandled_no_reply :
    runM (Socks5.serve_connection Socks5.defaultAuthHandlers (fun _ _ => none))
        ([5, 1, 0] ++ [5, 1, 0, 1] ++ [127, 0, 0, 1] ++ [0, 1])
      = (Except.error PyErr.osError,
         { input := [],
           trace := [Ev.rd [5, 1], Ev.rd [0], Ev.wr [5, 0], Ev.rd [5, 1, 0, 1],
                     Ev.rd [127, 0, 0, 1], Ev.rd [0, 1], Ev.dial "127.0.0.1" 1],
           remote := none, closed := false, worker := false }) := rfl

/-- Claim C5, counterexample: a server configured with the
Username/Password strategy (method 1) and a greeting offering exactly
method 1.  The intersection is the singleton {1}, so the selected method
is forced; yet the server writes NO 2-byte selection message — its very
next actions are the credential reads of the sub-negotiation
(`writesOf` of the whole trace is empty).  The claim's "sends the client
a 2-byte selection message containing that method id before any
sub-negotiation" is therefore false at this input. -/
theorem no_selection_message_counterexample :
    runM (Socks5.serve_connection
        [(1, AuthHandler.usernamePassword (fun _ _ => true))] (fun _ _ => none))
        ([5, 1, 1] ++ [1, 1, 97, 1, 98])
      = (Except.error PyErr.typeError,
         { input := [98],
           trace := [Ev.rd [5, 1], Ev.rd [1], Ev.rd [1, 1], Ev.rd [97], Ev.rd [1]],
           remote := none, closed := false, worker := false })
    ∧ writesOf [Ev.rd [5, 1], Ev.rd [1], Ev.rd [1, 1], Ev.rd [97], Ev.rd [1]] = [] :=
  ⟨rfl, rfl⟩

/-- Claim C7, counterexample: a DomainName request (`ATYP = 3`, domain
"example", port 80).  The spec decoder reads the length byte 7, the
7-byte domain and then the port 80; the code
(`_handle_connection_by_type`) ignores ATYP, reads the first 4 bytes
`[7, 101, 120, 97]` as an IPv4 address and the next two bytes as the
port, and dials `7.101.120.97:28016` — not the requested
`example:80`. -/
theorem domain_request_read_as_ipv4_counterexample :
    decodeConnectionRequestSpec [5, 1, 0, 3, 7, 101, 120, 97, 109, 112, 108, 101, 0, 80]
      = Except.ok (5, 1, 3, [101, 120, 97, 109, 112, 108, 101], 80)
    ∧ (runM (Socks5.handle_connection_by_type (fun _ _ => none))
        [5, 1, 0, 3, 7, 101, 120, 97, 109, 112, 108, 101, 0, 80]).2.trace
      = [Ev.rd [5, 1, 0, 3], Ev.rd [7, 101, 120, 97], Ev.rd [109, 112],
         Ev.dial "7.101.120.97" 28016] :=
  ⟨rfl, rfl⟩

/-- Claim C7, amended: for every connection request the code reads the
fixed 4-byte header and then — regardless of ATYP — exactly 4 address
bytes interpreted as an IPv4 dotted quad followed by a 2-byte big-endian
port; this agrees with the ATYP-dependent spec layout exactly for IPv4
(`ATYP = 1`), where the dialled address and port match the spec-decoded
destination for every request. -/
theorem request_decode_ipv4_amended (d1 d2 d3 d4 p1 p2 : Nat) :
    (runM (Socks5.handle_connection_by_type (fun _ _ => none))
        [5, 1, 0, 1, d1, d2, d3, d4, p1, p2]).2.trace
      = [Ev.rd [5, 1, 0, 1], Ev.rd [d1, d2, d3, d4], Ev.rd [p1, p2],
         Ev.dial (s!"{d1}.{d2}.{d3}.{d4}") (p1 * 256 + p2)]
    ∧ decodeConnectionRequestSpec [5, 1, 0, 1, d1, d2, d3, d4, p1, p2]
      = Except.ok (5, 1, 1, [d1, d2, d3, d4], p1 * 256 + p2) :=
  ⟨rfl, rfl⟩

/-- Claim C9, counterexample: a BIND request (`CMD = 2`).  The dispatch
writes the CommandNotSupported reply and closes the client transport, but
`serve_connection` then still creates the relay worker task
(`worker := true` below) although no upstream exists
(`remote := none`) — refuting "the relay phase never starts ... after an
unsupported command". -/
theorem unsupported_command_starts_relay_counterexample :
    runM (Socks5.serve_connection Socks5.defaultAuthHandlers (fun _ _ => none))
        ([5, 1, 0] ++ [5, 2, 0, 1, 0, 0])
      = (Except.ok (),
         { input := [0, 0],
           trace := [Ev.rd [5, 1], Ev.rd [0], Ev.wr [5, 0], Ev.rd [5, 2, 0, 1],
                     Ev.wr [5, 7], Ev.closeClient, Ev.startWorker],
           remote := none, closed := true, worker := true }) := rfl

/-- Claim C1: for every CONNECT request whose outbound dial succeeds
(the environment returns the sockname `(ba, bp)` of the new outbound
socket), the full session trace shows the Success reply — `[5, 0, 0,
atyp]` followed by `inet_aton ba ++ packH bp`, i.e. the LOCAL address and
port of the newly opened outbound connection, not the client-requested
destination `[d1, d2, d3, d4] / p1 * 256 + p2` (which appears only in
`Ev.rd` events and in the dial target) — written to the client strictly
before `Ev.startWorker`, the creation of the relay task; no
`Ev.wrRemote` and no upstream-originated client write occurs anywhere in
the trace, since both relay directions (the exchange loop and
`RemoteConnection.data_received`) only run once the event loop resumes
after `serve_connection`'s final synchronous segment. -/
theorem connect_success_reply_echoes_sockname_before_relay
    (d1 d2 d3 d4 p1 p2 atyp : Nat) (ba : String) (bp : Nat) (b4 : Bytes)
    (hatyp : atyp < 256) (hb : inet_aton ba = Except.ok b4) (hbp : bp < 65536) :
    runM (Socks5.serve_connection Socks5.defaultAuthHandlers (fun _ _ => some (ba, bp)))
        ([5, 1, 0] ++ [5, 1, 0, atyp, d1, d2, d3, d4, p1, p2])
      = (Except.ok (),
         { input := [],
           trace := [Ev.rd [5, 1], Ev.rd [0], Ev.wr [5, 0],
                     Ev.rd [5, 1, 0, atyp], Ev.rd [d1, d2, d3, d4], Ev.rd [p1, p2],
                     Ev.dial (s!"{d1}.{d2}.{d3}.{d4}") (p1 * 256 + p2),
                     Ev.wr [5, 0, 0, atyp], Ev.wr (b4 ++ [bp / 256, bp % 256]),
                     Ev.startWorker],
           remote := some (ba, bp), closed := false, worker := true }) := by
  simp [runM, initState, Socks5.serve_connection, Socks5.authenticate,
        Socks5.defaultAuthHandlers, Socks5.VERSION, Socks5.dictGet,
        Socks5.handle_connection_by_type, Socks5.CONNECT, Socks5.connect,
        Socks5.create_connection, Socks5.setRemote, Socks5.startWorker,
        M.bind, M.pure, liftE, readB, writeB, closeClient,
        unpackBB, unpackExact, unpack4B, unpackH, setPop, List.filter, List.lookup,
        AuthHandler.negotiate, WithoutAuth.negotiate, BaseAuthentication.on_success,
        packBs, packH, inet_ntoa, hb, hatyp, hbp]

/-- Claim C1, witness: the theorem at CONNECT to 93.184.216.34:80 with
sockname 10.0.0.7:40000; the reply carries `[10, 0, 0, 7, 156, 64]`
(10.0.0.7, port 40000 big-endian), not the destination. -/
theorem connect_success_reply_echoes_sockname_before_relay_witness :
    runM (Socks5.serve_connection Socks5.defaultAuthHandlers
        (fun _ _ => some ("10.0.0.7", 40000)))
        ([5, 1, 0] ++ [5, 1, 0, 1, 93, 184, 216, 34, 0, 80])
      = (Except.ok (),
         { input := [],
           trace := [Ev.rd [5, 1], Ev.rd [0], Ev.wr [5, 0], Ev.rd [5, 1, 0, 1],
                     Ev.rd [93, 184, 216, 34], Ev.rd [0, 80],
                     Ev.dial "93.184.216.34" 80,
                     Ev.wr [5, 0, 0, 1], Ev.wr [10, 0, 0, 7, 156, 64],
                     Ev.startWorker],
           remote := some ("10.0.0.7", 40000), closed := false, worker := true }) :=
  connect_success_reply_echoes_sockname_before_relay 93 184 216 34 0 80 1
    "10.0.0.7" 40000 [10, 0, 0, 7] (by decide) (by decide) (by decide)

/-- Claim C5, amended: for every valid greeting offering at least one
server-supported method (for the default server: whenever method 0 is
among the offered methods, so the intersection is the forced singleton
{0}), the handshake selects that mutually supported method and invokes
its sub-negotiation directly, WITHOUT first sending a method-selection
message: the only server message of the whole handshake is the 2-byte
auth-result `[5, 0]` written by the No-Auth strategy — which happens to
carry the selected method id 0 in its second byte, but is produced by
`on_success`, not by a selection step. -/
theorem noauth_negotiation_sends_single_message (ms : Bytes)
    (h0 : 0 ∈ ms) (_hlen : ms.length ≤ 255) :
    runM (Socks5.authenticate Socks5.defaultAuthHandlers) ([5, ms.length] ++ ms)
      = (Except.ok (),
         { input := [], trace := [Ev.rd [5, ms.length], Ev.rd ms, Ev.wr [5, 0]],
           remote := none, closed := false, worker := false }) := by
  simp [runM, initState, Socks5.authenticate, Socks5.defaultAuthHandlers,
        Socks5.VERSION, Socks5.dictGet, M.bind, M.pure, liftE, readB, writeB,
        closeClient, unpackBB, unpackExact, setPop, List.filter, h0,
        AuthHandler.negotiate, WithoutAuth.negotiate, BaseAuthentication.on_success,
        packBs, List.lookup]

/-- Claim C5, witness: the amended theorem at the greeting `[5, 1, 0]`
(one offered method, No-Auth). -/
theorem noauth_negotiation_sends_single_message_witness :
    runM (Socks5.authenticate Socks5.defaultAuthHandlers) [5, 1, 0]
      = (Except.ok (),
         { input := [], trace := [Ev.rd [5, 1], Ev.rd [0], Ev.wr [5, 0]],
           remote := none, closed := false, worker := false }) :=
  noauth_negotiation_sends_single_message [0] (by decide) (by decide)

/-- Claim C9, amended: in a session with a valid No-Auth greeting and a
10-byte request, the upstream stream (`remote`) exists iff the command is
CONNECT and the outbound dial succeeded; the relay worker starts whenever
dispatch returns without raising — that is, after a successful CONNECT
dial, and ALSO after an unsupported command (where the client transport
has already been closed and no upstream exists); only a raising path
(here: a failed CONNECT dial) prevents the relay task from being
created. -/
theorem upstream_iff_connect_dial_amended (c atyp d1 d2 d3 d4 p1 p2 : Nat)
    (dial : Socks5.Dial) (hatyp : atyp < 256)
    (hdial : ∀ a p ba bp, dial a p = some (ba, bp) →
      (∃ b4, inet_aton ba = Except.ok b4) ∧ bp < 65536) :
    (runM (Socks5.serve_connection Socks5.defaultAuthHandlers dial)
        ([5, 1, 0] ++ [5, c, 0, atyp, d1, d2, d3, d4, p1, p2])).2.remote
      = (if c = 1 then dial (s!"{d1}.{d2}.{d3}.{d4}") (p1 * 256 + p2) else none) ∧
    (runM (Socks5.serve_connection Socks5.defaultAuthHandlers dial)
        ([5, 1, 0] ++ [5, c, 0, atyp, d1, d2, d3, d4, p1, p2])).2.worker
      = (if c = 1 then (dial (s!"{d1}.{d2}.{d3}.{d4}") (p1 * 256 + p2)).isSome
         else true) := by
  by_cases hc : c = 1
  · subst hc
    rcases hdl : dial (s!"{d1}.{d2}.{d3}.{d4}") (p1 * 256 + p2) with _ | ⟨ba, bp⟩
    · simp [runM, initState, Socks5.serve_connection, Socks5.authenticate,
            Socks5.defaultAuthHandlers, Socks5.VERSION, Socks5.dictGet,
            Socks5.handle_connection_by_type, Socks5.CONNECT, Socks5.connect,
            Socks5.create_connection, Socks5.setRemote, Socks5.startWorker,
            Socks5.COMMAND_NOT_SUPPORTED, M.bind, M.pure, liftE, readB, writeB,
            closeClient, unpackBB, unpackExact, unpack4B, unpackH, setPop,
            List.filter, List.lookup, AuthHandler.negotiate, WithoutAuth.negotiate,
            BaseAuthentication.on_success, packBs, packH, inet_ntoa, hdl]
    · obtain ⟨⟨b4, hb⟩, hbp⟩ := hdial _ _ ba bp hdl
      simp [runM, initState, Socks5.serve_connection, Socks5.authenticate,
            Socks5.defaultAuthHandlers, Socks5.VERSION, Socks5.dictGet,
            Socks5.handle_connection_by_type, Socks5.CONNECT, Socks5.connect,
            Socks5.create_connection, Socks5.setRemote, Socks5.startWorker,
            Socks5.COMMAND_NOT_SUPPORTED, M.bind, M.pure, liftE, readB, writeB,
            closeClient, unpackBB, unpackExact, unpack4B, unpackH, setPop,
            List.filter, List.lookup, AuthHandler.negotiate, WithoutAuth.negotiate,
            BaseAuthentication.on_success, packBs, packH, inet_ntoa,
            hdl, hb, hatyp, hbp]
  · simp [runM, initState, Socks5.serve_connection, Socks5.authenticate,
          Socks5.defaultAuthHandlers, Socks5.VERSION, Socks5.dictGet,
          Socks5.handle_connection_by_type, Socks5.CONNECT, Socks5.connect,
          Socks5.create_connection, Socks5.setRemote, Socks5.startWorker,
          Socks5.COMMAND_NOT_SUPPORTED, M.bind, M.pure, liftE, readB, writeB,
          closeClient, unpackBB, unpackExact, unpack4B, unpackH, setPop,
          List.filter, List.lookup, AuthHandler.negotiate, WithoutAuth.negotiate,
          BaseAuthentication.on_success, packBs, packH, inet_ntoa, hc]

/-- Claim C9, witness: the amended theorem at the unsupported command
`CMD = 2`: no upstream exists, yet the relay worker was started. -/
theorem upstream_iff_connect_dial_amended_witness :
    (runM (Socks5.serve_connection Socks5.defaultAuthHandlers (fun _ _ => none))
        ([5, 1, 0] ++ [5, 2, 0, 1, 11, 22, 33, 44, 0, 80])).2.remote = none ∧
    (runM (Socks5.serve_connection Socks5.defaultAuthHandlers (fun _ _ => none))
        ([5, 1, 0] ++ [5, 2, 0, 1, 11, 22, 33, 44, 0, 80])).2.worker = true := by
  have h := upstream_iff_connect_dial_amended 2 1 11 22 33 44 0 80
    (fun _ _ => none) (by decide)
    (fun a p ba bp hcontra => absurd hcontra (by simp))
  simpa using h

/-- Claim C10: a `Socks5` constructed without `auth_handlers` has an
authentication table with exactly the single No-Auth entry (method 0x00);
consequently, for every greeting whose offered methods do not include 0,
the intersection is empty and the client is never authenticated: the run
raises `KeyError` after the two greeting reads, with no negotiation and
no bytes ever written to the client. -/
theorem default_auth_table_noauth_only (ms : Bytes)
    (h0 : 0 ∉ ms) (_hlen : ms.length ≤ 255) :
    Socks5.defaultAuthHandlers.map Prod.fst = [0] ∧
    runM (Socks5.serve_connection Socks5.defaultAuthHandlers (fun _ _ => none))
        ([5, ms.length] ++ ms)
      = (Except.error PyErr.keyError,
         { input := [], trace := [Ev.rd [5, ms.length], Ev.rd ms],
           remote := none, closed := false, worker := false }) := by
  refine ⟨rfl, ?_⟩
  simp [runM, initState, Socks5.serve_connection, Socks5.authenticate,
        Socks5.defaultAuthHandlers, Socks5.VERSION, M.bind, M.pure, liftE, readB,
        closeClient, unpackBB, unpackExact, setPop, List.filter, h0]

/-- Claim C10, witness: the theorem at a greeting offering only the
Username/Password method (id 1). -/
theorem default_auth_table_noauth_only_witness :
    Socks5.defaultAuthHandlers.map Prod.fst = [0] ∧
    runM (Socks5.serve_connection Socks5.defaultAuthHandlers (fun _ _ => none))
        [5, 1, 1]
      = (Except.error PyErr.keyError,
         { input := [], trace := [Ev.rd [5, 1], Ev.rd [1]],
           remote := none, closed := false, worker := false }) :=
  default_auth_table_noauth_only [1] (by decide) (by decide)
